import Mathlib

/-!
Shallow embedding of `src/dependensy_visualiser.py`, the stage-1 configuration
loader of the dependency-visualiser tool, together with a spec-modelled
version of the local-file dependency-resolution path (the resolver component
is described by the specification but is not part of the source tree).

Modelling conventions:
* `ConfigError` messages are plain `String`s carried in `Except.error`
  (the Russian message texts of the source are rendered in English;
  no claim depends on message wording).
* The XML configuration file is modelled by `ConfigSource`: the file may be
  missing, unreadable, malformed, or parsed into a root whose children are
  `XmlElement`s (a tag plus an optional text node, as ElementTree reports).
* `self.config` is a Python dict, modelled as an insertion-ordered
  association list `ConfigDict` with Python assignment semantics (`dictSet`).
* The `print(...)` warnings of `_validate_config` (non-`.txt` test-repository
  path, unusual output extension) only write to stderr and are modelled as
  no-ops; the `isinstance(..., str)` checks always pass because every stored
  value is a string, so they are omitted.
-/

deriving instance DecidableEq for Except

/-- Python `str.strip()` on the character list: drop leading and trailing
whitespace. -/
def stripChars (cs : List Char) : List Char :=
  ((cs.dropWhile Char.isWhitespace).reverse.dropWhile Char.isWhitespace).reverse

/-- Python `str.strip()`. -/
def strip (s : String) : String := ⟨stripChars s.data⟩

/-- Python `str.lower()` (the configuration fields are ASCII). -/
def lower (s : String) : String := ⟨s.data.map Char.toLower⟩

/-- Whether the first list is an initial segment of the second. -/
def listLeads : List Char → List Char → Bool
  | [], _ => true
  | _ :: _, [] => false
  | p :: ps, c :: cs => p == c && listLeads ps cs

/-- Python `s.startswith(pat)`. -/
def strStarts (s pat : String) : Bool := listLeads pat.data s.data

/-- An XML child element of the configuration root: a tag name plus an
optional text node (`none` models `element.text is None`). -/
structure XmlElement where
  name : String
  text : Option String
deriving Repr, DecidableEq

/-- The parsed XML root: its child elements in document order. -/
abbrev XmlRoot := List XmlElement

/-- A configuration source as `load_config` can encounter it. -/
inductive ConfigSource where
  | missing
  | unreadable
  | parseError
  | parsed (root : XmlRoot)
deriving Repr, DecidableEq

/-- The visualizer's `self.config` dictionary: an insertion-ordered map from
field names to string values. -/
abbrev ConfigDict := List (String × String)

/-- Python dict assignment `d[k] = v`: replace the value in place when the key
exists, otherwise append the new pair. -/
def dictSet : ConfigDict → String → String → ConfigDict
  | [], k, v => [(k, v)]
  | (k0, v0) :: rest, k, v =>
      if k0 = k then (k, v) :: rest else (k0, v0) :: dictSet rest k v

/-- Python dict read `d[k]`.  Every read performed by `_validate_config`
happens after `load_config` has stored all five keys, so the missing-key
branch (a `KeyError` in Python) is never reached; it is mapped to `""`. -/
def lookupS : ConfigDict → String → String
  | [], _ => ""
  | (k0, v0) :: rest, k => if k0 = k then v0 else lookupS rest k

/-- `root.find(element_name)`: the first child element with the given tag,
or `none` when no child matches. -/
def findChild (root : XmlRoot) (element_name : String) : Option XmlElement :=
  root.find? (fun e => e.name == element_name)

/-- The default configuration dictionary built by
`DependencyVisualizer.__init__` (`self.default_config`, unused by
`load_config`). -/
def default_config : ConfigDict :=
  [("package_name", "requests"),
   ("repository_url", "https://pypi.org/simple/"),
   ("test_mode", "false"),
   ("test_repository_path", "test_repo.txt"),
   ("output_filename", "dependencies_graph.png")]

/-- `DependencyVisualizer._get_element_text(root, element_name, default)`:
absent element or missing text node yields the default when one is
registered, otherwise a `ConfigError`; present text is returned stripped. -/
def get_element_text (root : XmlRoot) (element_name : String)
    (dflt : Option String) : Except String String :=
  match findChild root element_name with
  | none =>
      match dflt with
      | some d => .ok d
      | none => .error ("required parameter missing: " ++ element_name)
  | some element =>
      match element.text with
      | none =>
          match dflt with
          | some d => .ok d
          | none => .error ("parameter must not be empty: " ++ element_name)
      | some t => .ok (strip t)

/-- The final output-filename check of `_validate_config` (shared by both
mode branches; the image-extension check only prints a warning). -/
def check_output (cfg : ConfigDict) : ConfigDict × Except String Unit :=
  if lookupS cfg "output_filename" = "" then
    (cfg, .error "output filename must not be empty")
  else
    (cfg, .ok ())

/-- `DependencyVisualizer._validate_config`: validates `self.config` and
stores the lower-cased `test_mode` back into the dict before the
mode-dependent checks.  Returns the (possibly mutated) dict together with
the outcome. -/
def validate_config (cfg : ConfigDict) : ConfigDict × Except String Unit :=
  if lookupS cfg "package_name" = "" then
    (cfg, .error "package name must not be empty")
  else
    let test_mode := lower (lookupS cfg "test_mode")
    if ¬(test_mode = "true" ∨ test_mode = "false") then
      (cfg, .error "test mode must be true or false")
    else
      let cfg2 := dictSet cfg "test_mode" test_mode
      if lookupS cfg2 "test_mode" = "true" then
        if lookupS cfg2 "test_repository_path" = "" then
          (cfg2, .error "test repository path required in test mode")
        else
          check_output cfg2
      else
        if lookupS cfg2 "repository_url" = "" then
          (cfg2, .error "repository URL required in normal mode")
        else
          if ¬(strStarts (lookupS cfg2 "repository_url") "http://" = true ∨
               strStarts (lookupS cfg2 "repository_url") "https://" = true) then
            (cfg2, .error "repository URL must start with http or https")
          else
            check_output cfg2

/-- `DependencyVisualizer.load_config(config_path)`.  `st` is `self.config`
before the call; the returned dict is `self.config` after the call (the
Python method mutates the attribute field by field).  Every error raised
inside the `try` block other than an XML parse failure is re-raised as a
`ConfigError` with the standard wrapper message, mirroring the
`except ET.ParseError` / `except Exception` handlers. -/
def load_config (st : ConfigDict) (source : ConfigSource) :
    ConfigDict × Except String ConfigDict :=
  match source with
  | .missing => (st, .error "configuration load error: config file not found")
  | .unreadable => (st, .error "configuration load error: file not readable")
  | .parseError => (st, .error "XML parse error")
  | .parsed root =>
    match get_element_text root "package_name" none with
    | .error e => (st, .error ("configuration load error: " ++ e))
    | .ok package_name =>
      let st1 := dictSet st "package_name" package_name
      match get_element_text root "repository_url" none with
      | .error e => (st1, .error ("configuration load error: " ++ e))
      | .ok repository_url =>
        let st2 := dictSet st1 "repository_url" repository_url
        match get_element_text root "test_mode" (some "false") with
        | .error e => (st2, .error ("configuration load error: " ++ e))
        | .ok test_mode =>
          let st3 := dictSet st2 "test_mode" test_mode
          match get_element_text root "test_repository_path" none with
          | .error e => (st3, .error ("configuration load error: " ++ e))
          | .ok test_repository_path =>
            let st4 := dictSet st3 "test_repository_path" test_repository_path
            match get_element_text root "output_filename" none with
            | .error e => (st4, .error ("configuration load error: " ++ e))
            | .ok output_filename =>
              let st5 := dictSet st4 "output_filename" output_filename
              match validate_config st5 with
              | (st6, .error e) =>
                  (st6, .error ("configuration load error: " ++ e))
              | (st6, .ok _) => (st6, .ok st6)

/-- `load_config` invoked on a freshly constructed `DependencyVisualizer`
(whose `__init__` sets `self.config = {}`). -/
def loadConfig (source : ConfigSource) : Except String ConfigDict :=
  (load_config [] source).2

/-- Whether an outcome is a `ConfigError`. -/
def isErr {α : Type} : Except String α → Bool
  | .error _ => true
  | .ok _ => false

/-- The URL-validity test applied by `_validate_config` in normal mode:
the URL starts with `http://` or `https://` (such a URL is in particular
non-empty). -/
def isValidUrl (url : String) : Bool :=
  strStarts url "http://" || strStarts url "https://"

/-! Concrete configuration sources used by counterexamples and witnesses. -/

/-- A source in test mode with no `repository_url` element at all. -/
def rootNoUrl : XmlRoot :=
  [⟨"package_name", some "mypkg"⟩,
   ⟨"test_mode", some "true"⟩,
   ⟨"test_repository_path", some "repo.txt"⟩,
   ⟨"output_filename", some "graph.png"⟩]

/-- A source in test mode that also carries a valid repository URL. -/
def rootBothModes : XmlRoot :=
  [⟨"package_name", some "mypkg"⟩,
   ⟨"repository_url", some "https://pypi.org/simple/"⟩,
   ⟨"test_mode", some "true"⟩,
   ⟨"test_repository_path", some "repo.txt"⟩,
   ⟨"output_filename", some "graph.png"⟩]

/-- The configuration dictionary `load_config` returns for `rootBothModes`. -/
def cfgBothModes : ConfigDict :=
  [("package_name", "mypkg"),
   ("repository_url", "https://pypi.org/simple/"),
   ("test_mode", "true"),
   ("test_repository_path", "repo.txt"),
   ("output_filename", "graph.png")]

/-- A source whose only element is `package_name`. -/
def rootOnlyName : XmlRoot := [⟨"package_name", some "mypkg"⟩]

/-- A test-mode source whose `repository_url` text is whitespace only. -/
def rootBlankUrl : XmlRoot :=
  [⟨"package_name", some "mypkg"⟩,
   ⟨"repository_url", some " "⟩,
   ⟨"test_mode", some "true"⟩,
   ⟨"test_repository_path", some "repo.txt"⟩,
   ⟨"output_filename", some "graph.png"⟩]

/-- The configuration dictionary `load_config` returns for `rootBlankUrl`. -/
def cfgBlankUrl : ConfigDict :=
  [("package_name", "mypkg"),
   ("repository_url", ""),
   ("test_mode", "true"),
   ("test_repository_path", "repo.txt"),
   ("output_filename", "graph.png")]

/-- A source whose `package_name` text is whitespace only. -/
def rootBlankName : XmlRoot :=
  [⟨"package_name", some " "⟩,
   ⟨"repository_url", some "https://pypi.org/simple/"⟩,
   ⟨"test_mode", some "false"⟩,
   ⟨"test_repository_path", some "repo.txt"⟩,
   ⟨"output_filename", some "graph.png"⟩]

/-- An otherwise valid source whose `test_mode` text is whitespace only. -/
def rootBlankMode : XmlRoot :=
  [⟨"package_name", some "mypkg"⟩,
   ⟨"repository_url", some "https://pypi.org/simple/"⟩,
   ⟨"test_mode", some " "⟩,
   ⟨"test_repository_path", some "repo.txt"⟩,
   ⟨"output_filename", some "graph.png"⟩]

/-- An otherwise valid source with upper-case `test_mode` text. -/
def rootUpperMode : XmlRoot :=
  [⟨"package_name", some "mypkg"⟩,
   ⟨"repository_url", some "https://pypi.org/simple/"⟩,
   ⟨"test_mode", some "TRUE"⟩,
   ⟨"test_repository_path", some "repo.txt"⟩,
   ⟨"output_filename", some "graph.png"⟩]

/-- The configuration dictionary `load_config` returns for `rootUpperMode`. -/
def cfgUpperMode : ConfigDict :=
  [("package_name", "mypkg"),
   ("repository_url", "https://pypi.org/simple/"),
   ("test_mode", "true"),
   ("test_repository_path", "repo.txt"),
   ("output_filename", "graph.png")]

/-- An otherwise valid source whose `test_mode` text is not a boolean. -/
def rootBadMode : XmlRoot :=
  [⟨"package_name", some "mypkg"⟩,
   ⟨"repository_url", some "https://pypi.org/simple/"⟩,
   ⟨"test_mode", some "invalid"⟩,
   ⟨"test_repository_path", some "repo.txt"⟩,
   ⟨"output_filename", some "graph.png"⟩]

/-- A normal-mode dictionary whose repository URL lacks the http(s) scheme. -/
def cfgFtpUrl : ConfigDict :=
  [("package_name", "mypkg"),
   ("repository_url", "ftp://mirror.example"),
   ("test_mode", "false"),
   ("test_repository_path", "repo.txt"),
   ("output_filename", "graph.png")]

/-- A test-mode dictionary with an empty test-repository path and a valid
repository URL. -/
def cfgTestNoPath : ConfigDict :=
  [("package_name", "mypkg"),
   ("repository_url", "https://pypi.org/simple/"),
   ("test_mode", "true"),
   ("test_repository_path", ""),
   ("output_filename", "graph.png")]
/-! The DependencyResolver component (spec section 4.2) is not present in the
source tree — the repository holds only the stage-1 configuration loader —
so its local-file path is modelled from the specification's words below. -/

/-- Modelled from the spec: split a character list at the first occurrence of
`sep` (Python `line.split(sep, 1)`); `none` when `sep` does not occur. -/
def splitFirst (sep : Char) : List Char → Option (List Char × List Char)
  | [] => none
  | c :: rest =>
      if c == sep then some ([], rest)
      else
        match splitFirst sep rest with
        | none => none
        | some (k, v) => some (c :: k, v)

/-- Modelled from the spec: split a character list on every occurrence of
`sep` (Python `s.split(sep)`). -/
def splitAll (sep : Char) : List Char → List (List Char)
  | [] => [[]]
  | c :: cs =>
      match splitAll sep cs with
      | [] => [[c]]
      | g :: gs => if c == sep then [] :: g :: gs else (c :: g) :: gs

/-- Modelled from the spec: the key of a substitute-registry line — the text
before the first colon (the whole line when no colon occurs), trimmed. -/
def lineKey (line : String) : String :=
  match splitFirst ':' line.data with
  | some (k, _) => strip ⟨k⟩
  | none => strip line

/-- Modelled from the spec: the value part of a substitute-registry line —
the text after the first colon, or empty when no colon occurs. -/
def lineValue (line : String) : String :=
  match splitFirst ':' line.data with
  | some (_, v) => ⟨v⟩
  | none => ""

/-- Modelled from the spec: the dependency tokens of a line — the value split
on commas, each token trimmed, empty tokens discarded, order preserved and
duplicates kept. -/
def lineDeps (line : String) : List String :=
  (((splitAll ',' (lineValue line).data).map (fun cs => strip (⟨cs⟩ : String))).filter
    (fun s => s ≠ ""))

/-- Modelled from the spec (section 4.2, local-file path, steps 2-4): given
the lines of the substitute-registry file, keep the non-empty lines, scan
for the first line whose trimmed key equals the package name
case-insensitively, and return its dependency tokens; fail when no line
matches. -/
def resolve_local (package_name : String) (fileLines : List String) :
    Except String (List String) :=
  let lines := fileLines.filter (fun l => l ≠ "")
  match lines.find? (fun l => lower (lineKey l) == lower package_name) with
  | some l => .ok (lineDeps l)
  | none => .error ("package not found in local file: " ++ package_name)

/-- Modelled from the spec (section 4.2, local-file path, step 1): resolution
against a possibly missing file — a missing `test_repository_path` fails
before any line is inspected. -/
def resolve_local_file (package_name : String) (file : Option (List String)) :
    Except String (List String) :=
  match file with
  | none => .error "test repository file not found"
  | some fileLines => resolve_local package_name fileLines
/-- A fully validated configuration dictionary: every condition
`_validate_config` enforces holds of the stored fields. -/
def fullyValidated (cfg : ConfigDict) : Prop :=
  lookupS cfg "package_name" ≠ "" ∧
  (lookupS cfg "test_mode" = "true" ∨ lookupS cfg "test_mode" = "false") ∧
  (lookupS cfg "test_mode" = "true" →
     lookupS cfg "test_repository_path" ≠ "") ∧
  (lookupS cfg "test_mode" = "false" →
     lookupS cfg "repository_url" ≠ "" ∧
     isValidUrl (lookupS cfg "repository_url") = true) ∧
  lookupS cfg "output_filename" ≠ ""

/-- Helper: when `_validate_config` succeeds on the dictionary shape produced
by `load_config`'s extraction phase, the resulting dictionary carries the
lower-cased `test_mode` and all validated conditions hold. -/
theorem validate_config_ok_shape (p u m t o : String) (st6 : ConfigDict) (x : Unit)
    (hv : validate_config [("package_name", p), ("repository_url", u), ("test_mode", m),
      ("test_repository_path", t), ("output_filename", o)] = (st6, .ok x)) :
    st6 = [("package_name", p), ("repository_url", u), ("test_mode", lower m),
           ("test_repository_path", t), ("output_filename", o)] ∧
    p ≠ "" ∧ (lower m = "true" ∨ lower m = "false") ∧
    (lower m = "true" → t ≠ "") ∧
    (lower m = "false" → u ≠ "" ∧
      (strStarts u "http://" = true ∨ strStarts u "https://" = true)) ∧
    o ≠ "" := by
  simp only [validate_config, check_output, lookupS, dictSet, String.reduceEq,
    reduceIte] at hv
  split at hv
  · simp at hv
  · rename_i hp
    split at hv
    · simp at hv
    · rename_i hmode
      push_neg at hmode
      split at hv
      · rename_i hmt
        split at hv
        · simp at hv
        · rename_i ht
          split at hv
          · simp at hv
          · rename_i ho
            obtain ⟨h1, h2⟩ := Prod.mk.injEq .. ▸ hv
            refine ⟨h1.symm, hp, hmode, fun _ => ht, fun hf => absurd (hmt ▸ hf) (by decide), ho⟩
      · rename_i hmf
        split at hv
        · simp at hv
        · rename_i hu
          split at hv
          · simp at hv
          · rename_i hstart
            split at hv
            · simp at hv
            · rename_i ho
              obtain ⟨h1, h2⟩ := Prod.mk.injEq .. ▸ hv
              exact ⟨h1.symm, hp, hmode, fun htr => absurd htr hmf,
                fun _ => ⟨hu, not_not.mp hstart⟩, ho⟩

/-- Helper: characterization of every successful `load_config` call on a
fresh visualizer — the source parsed, each field was extracted, and the
returned dictionary is the five extracted fields (with `test_mode`
lower-cased) satisfying all validation conditions. -/
theorem loadConfig_ok_shape (src : ConfigSource) (cfg : ConfigDict)
    (h : loadConfig src = .ok cfg) :
    ∃ root p u m t o,
      src = .parsed root ∧
      get_element_text root "package_name" none = .ok p ∧
      get_element_text root "repository_url" none = .ok u ∧
      get_element_text root "test_mode" (some "false") = .ok m ∧
      get_element_text root "test_repository_path" none = .ok t ∧
      get_element_text root "output_filename" none = .ok o ∧
      cfg = [("package_name", p), ("repository_url", u), ("test_mode", lower m),
             ("test_repository_path", t), ("output_filename", o)] ∧
      p ≠ "" ∧ (lower m = "true" ∨ lower m = "false") ∧
      (lower m = "true" → t ≠ "") ∧
      (lower m = "false" → u ≠ "" ∧
        (strStarts u "http://" = true ∨ strStarts u "https://" = true)) ∧
      o ≠ "" := by
  cases src with
  | missing => simp [loadConfig, load_config] at h
  | unreadable => simp [loadConfig, load_config] at h
  | parseError => simp [loadConfig, load_config] at h
  | parsed root =>
    simp only [loadConfig, load_config, dictSet, String.reduceEq, reduceIte] at h
    split at h
    · simp at h
    · rename_i p hp
      split at h
      · simp at h
      · rename_i u hu
        split at h
        · simp at h
        · rename_i m hm
          split at h
          · simp at h
          · rename_i t ht
            split at h
            · simp at h
            · rename_i o ho
              split at h
              · simp at h
              · rename_i st6 x hv
                obtain ⟨h1, hp', hmor, hmt, hmf, ho'⟩ :=
                  validate_config_ok_shape p u m t o st6 x hv
                have hcfg : cfg = st6 := by simpa using h.symm
                exact ⟨root, p, u, m, t, o, rfl, hp, hu, hm, ht, ho,
                  hcfg.trans h1, hp', hmor, hmt, hmf, ho'⟩
/-- Helper: reading a key after a Python dict assignment. -/
theorem lookupS_dictSet (d : ConfigDict) (k k' v : String) :
    lookupS (dictSet d k v) k' = if k = k' then v else lookupS d k' := by
  induction d with
  | nil => simp [dictSet, lookupS]
  | cons kv rest ih =>
    obtain ⟨k0, v0⟩ := kv
    simp only [dictSet]
    by_cases h0 : k0 = k
    · subst h0
      by_cases h1 : k0 = k'
      · subst h1; simp [lookupS]
      · simp [lookupS, h1]
    · simp only [if_neg h0, lookupS]
      by_cases h1 : k0 = k'
      · subst h1
        have : ¬k = k0 := fun h => h0 h.symm
        simp [this]
      · simp [h1, ih]

/-- Helper: when any of the four no-default fields is absent from the parsed
root, a fresh `load_config` fails. -/
theorem load_err_of_field_missing (root : XmlRoot) (f : String)
    (hf : f = "package_name" ∨ f = "repository_url" ∨
          f = "test_repository_path" ∨ f = "output_filename")
    (h : findChild root f = none) :
    isErr (loadConfig (.parsed root)) = true := by
  cases hres : loadConfig (.parsed root) with
  | error e => rfl
  | ok cfg =>
    exfalso
    obtain ⟨root', p, u, m, t, o, heq, hp, hu, hm, ht, ho, -⟩ :=
      loadConfig_ok_shape _ _ hres
    obtain rfl : root = root' := by injection heq
    rcases hf with rfl | rfl | rfl | rfl
    · rw [get_element_text, h] at hp; simp at hp
    · rw [get_element_text, h] at hu; simp at hu
    · rw [get_element_text, h] at ht; simp at ht
    · rw [get_element_text, h] at ho; simp at ho
/-- Helper: a trimmed-empty `package_name` makes a fresh `load_config` fail. -/
theorem load_err_of_empty_package (root : XmlRoot)
    (h : get_element_text root "package_name" none = .ok "") :
    isErr (loadConfig (.parsed root)) = true := by
  cases hres : loadConfig (.parsed root) with
  | error e => rfl
  | ok cfg =>
    exfalso
    obtain ⟨root', p, u, m, t, o, heq, hp, hu, hm, ht, ho, hcfg, hp', -⟩ :=
      loadConfig_ok_shape _ _ hres
    obtain rfl : root = root' := by injection heq
    rw [h] at hp
    exact hp' (by injection hp with h'; exact h'.symm)

/-- Helper: a trimmed-empty `output_filename` makes a fresh `load_config` fail. -/
theorem load_err_of_empty_output (root : XmlRoot)
    (h : get_element_text root "output_filename" none = .ok "") :
    isErr (loadConfig (.parsed root)) = true := by
  cases hres : loadConfig (.parsed root) with
  | error e => rfl
  | ok cfg =>
    exfalso
    obtain ⟨root', p, u, m, t, o, heq, hp, hu, hm, ht, ho, hcfg, hp', hmor, hmt, hmf, ho'⟩ :=
      loadConfig_ok_shape _ _ hres
    obtain rfl : root = root' := by injection heq
    rw [h] at ho
    exact ho' (by injection ho with h'; exact h'.symm)

/-- Helper: a trimmed-empty `repository_url` makes a fresh `load_config` fail
when `test_mode` resolves to `false`. -/
theorem load_err_of_empty_url (root : XmlRoot) (m : String)
    (hm0 : get_element_text root "test_mode" (some "false") = .ok m)
    (hmode : lower m = "false")
    (h : get_element_text root "repository_url" none = .ok "") :
    isErr (loadConfig (.parsed root)) = true := by
  cases hres : loadConfig (.parsed root) with
  | error e => rfl
  | ok cfg =>
    exfalso
    obtain ⟨root', p, u, m', t, o, heq, hp, hu, hm, ht, ho, hcfg, hp', hmor, hmt, hmf, ho'⟩ :=
      loadConfig_ok_shape _ _ hres
    obtain rfl : root = root' := by injection heq
    obtain rfl : m = m' := by rw [hm0] at hm; injection hm
    obtain rfl : u = "" := by rw [h] at hu; injection hu with h'; exact h'.symm
    exact (hmf hmode).1 rfl

/-- Helper: a trimmed-empty `test_repository_path` makes a fresh `load_config`
fail when `test_mode` resolves to `true`. -/
theorem load_err_of_empty_path (root : XmlRoot) (m : String)
    (hm0 : get_element_text root "test_mode" (some "false") = .ok m)
    (hmode : lower m = "true")
    (h : get_element_text root "test_repository_path" none = .ok "") :
    isErr (loadConfig (.parsed root)) = true := by
  cases hres : loadConfig (.parsed root) with
  | error e => rfl
  | ok cfg =>
    exfalso
    obtain ⟨root', p, u, m', t, o, heq, hp, hu, hm, ht, ho, hcfg, hp', hmor, hmt, hmf, ho'⟩ :=
      loadConfig_ok_shape _ _ hres
    obtain rfl : root = root' := by injection heq
    obtain rfl : m = m' := by rw [hm0] at hm; injection hm
    obtain rfl : t = "" := by rw [h] at ht; injection ht with h'; exact h'.symm
    exact (hmt hmode) rfl
/-- Helper: `dropWhile` never lengthens a list. -/
theorem length_dropWhile_le (p : Char → Bool) (l : List Char) :
    (l.dropWhile p).length ≤ l.length := by
  induction l with
  | nil => simp
  | cons x xs ih =>
    rw [List.dropWhile_cons]
    split
    · exact le_trans ih (by simp)
    · simp

/-- Helper: a list fixed by `dropWhile p` has a head not satisfying `p`. -/
theorem head_false_of_dropWhile_fix (p : Char → Bool) (x : Char) (xs : List Char)
    (h : (x :: xs).dropWhile p = x :: xs) : p x = false := by
  by_contra hw
  rw [List.dropWhile_cons, if_pos (by simpa using hw)] at h
  have h1 := congrArg List.length h
  have h2 := length_dropWhile_le p xs
  simp at h1
  omega

/-- Helper: stripping the tail of a list whose head does not satisfy `p`
yields a list that is again fixed by `dropWhile p`. -/
theorem dropWhile_reverse_fix (p : Char → Bool) (l : List Char)
    (h : l.dropWhile p = l) :
    ((l.reverse.dropWhile p).reverse).dropWhile p =
      (l.reverse.dropWhile p).reverse := by
  cases l with
  | nil => simp
  | cons x xs =>
    have hx : p x = false := head_false_of_dropWhile_fix p x xs h
    rw [List.reverse_cons, List.dropWhile_append]
    by_cases he : (xs.reverse.dropWhile p).isEmpty
    · simp [he, List.dropWhile_cons, hx]
    · rw [if_neg (by simpa using he)]
      rw [List.reverse_append]
      simp [List.dropWhile_cons, hx]

/-- Python `strip` is idempotent. -/
theorem stripChars_idempotent (cs : List Char) :
    stripChars (stripChars cs) = stripChars cs := by
  unfold stripChars
  set w := Char.isWhitespace with hw
  set a := cs.dropWhile w with ha
  set b := a.reverse.dropWhile w with hb
  have hnla : a.dropWhile w = a := by rw [ha]; exact List.dropWhile_idempotent w cs
  have hnlr : (b.reverse).dropWhile w = b.reverse := by
    rw [hb]; exact dropWhile_reverse_fix w a hnla
  rw [hnlr, List.reverse_reverse]
  have hnlb : b.dropWhile w = b := by
    rw [hb]; exact List.dropWhile_idempotent w a.reverse
  rw [hnlb]

/-- Python `strip` is idempotent (string form). -/
theorem strip_strip (s : String) : strip (strip s) = strip s := by
  simp [strip, stripChars_idempotent]
/-- C1 counterexample: a source with `test_mode` resolving to `true` and no
`repository_url` element is rejected by `load_config`, although the claim
says it must succeed. -/
theorem C1_counterexample :
    findChild rootNoUrl "repository_url" = none ∧
    get_element_text rootNoUrl "test_mode" (some "false") = .ok "true" ∧
    isErr (loadConfig (.parsed rootNoUrl)) = true := by decide

/-- C1 (amended): both `repository_url` and `test_repository_path` elements
are required to be present in every mode — extraction fails when either is
absent, whatever `test_mode` is; only the content checks (URL scheme,
path non-emptiness) are mode-dependent. -/
theorem C1_amended (root : XmlRoot)
    (h : findChild root "repository_url" = none ∨
         findChild root "test_repository_path" = none) :
    isErr (loadConfig (.parsed root)) = true := by
  rcases h with h | h
  · exact load_err_of_field_missing root "repository_url" (by simp) h
  · exact load_err_of_field_missing root "test_repository_path" (by simp) h

/-- C1 witness: the amended statement applied to `rootNoUrl`. -/
theorem C1_witness : isErr (loadConfig (.parsed rootNoUrl)) = true :=
  C1_amended rootNoUrl (.inl (by decide))
/-- C2 counterexample: a successfully validated configuration in which both a
valid http(s) `repository_url` and (`test_mode = "true"` with non-empty
`test_repository_path`) hold at once, refuting the claimed exclusive-or. -/
theorem C2_counterexample :
    loadConfig (.parsed rootBothModes) = .ok cfgBothModes ∧
    isValidUrl (lookupS cfgBothModes "repository_url") = true ∧
    lookupS cfgBothModes "test_mode" = "true" ∧
    lookupS cfgBothModes "test_repository_path" ≠ "" := by decide

/-- C2 (amended): after validation succeeds, at least one of the two
conditions holds — the active mode's own condition always does — but the two
sourcing conditions are not mutually exclusive. -/
theorem C2_amended (src : ConfigSource) (cfg : ConfigDict)
    (h : loadConfig src = .ok cfg) :
    isValidUrl (lookupS cfg "repository_url") = true ∨
    (lookupS cfg "test_mode" = "true" ∧
     lookupS cfg "test_repository_path" ≠ "") := by
  obtain ⟨root, p, u, m, t, o, heq, hp, hu, hm, ht, ho, hcfg, hp', hmor, hmt, hmf, ho'⟩ :=
    loadConfig_ok_shape _ _ h
  subst hcfg
  simp only [lookupS, String.reduceEq, reduceIte]
  rcases hmor with hmode | hmode
  · exact .inr ⟨hmode, hmt hmode⟩
  · obtain ⟨-, hurl⟩ := hmf hmode
    left
    simp only [isValidUrl, Bool.or_eq_true]
    exact hurl

/-- C2 witness: the amended statement applied to `rootBothModes`. -/
theorem C2_witness :
    isValidUrl (lookupS cfgBothModes "repository_url") = true ∨
    (lookupS cfgBothModes "test_mode" = "true" ∧
     lookupS cfgBothModes "test_repository_path" ≠ "") :=
  C2_amended (.parsed rootBothModes) cfgBothModes (by decide)

/-- C3 counterexample: starting from an empty stored configuration, a failing
`load_config` call (the source lacks every field except `package_name`)
leaves the already-extracted `package_name` behind in `self.config`, so the
stored configuration is not the same as before the call. -/
theorem C3_counterexample :
    isErr (load_config [] (.parsed rootOnlyName)).2 = true ∧
    (load_config [] (.parsed rootOnlyName)).1 = [("package_name", "mypkg")] ∧
    ([("package_name", "mypkg")] : ConfigDict) ≠ [] := by decide

/-- C3 (amended): `load_config` is not atomic — fields extracted before the
failure point stay stored in `self.config`; the stored configuration is
guaranteed unchanged only when the call fails before the first extraction:
missing file, unreadable file, XML parse failure, or a failing
`package_name` extraction. -/
theorem C3_amended (st : ConfigDict) (src : ConfigSource)
    (h : src = .missing ∨ src = .unreadable ∨ src = .parseError ∨
         ∃ root e, src = .parsed root ∧
           get_element_text root "package_name" none = .error e) :
    (load_config st src).1 = st := by
  rcases h with rfl | rfl | rfl | ⟨root, e, rfl, herr⟩
  · rfl
  · rfl
  · rfl
  · simp only [load_config, herr]

/-- C3 witness: the amended statement applied to a missing file and a
non-empty prior configuration. -/
theorem C3_witness : (load_config [("package_name", "old")] .missing).1 =
    [("package_name", "old")] :=
  C3_amended [("package_name", "old")] .missing (.inl rfl)
/-- C4 counterexample: a `repository_url` whose trimmed text is empty does not
make `load_config` fail when `test_mode` is `true` — the load succeeds and
stores the empty string, refuting "emptiness ... always causes load to
fail". -/
theorem C4_counterexample :
    get_element_text rootBlankUrl "repository_url" none = .ok "" ∧
    loadConfig (.parsed rootBlankUrl) = .ok cfgBlankUrl := by decide

/-- C4 (amended): for every field other than `test_mode`, absence of the
field always causes a fresh `load_config` to fail and no default is
substituted; emptiness of the trimmed text always causes failure for
`package_name` and `output_filename`, while a trimmed-empty
`repository_url` fails only when `test_mode` resolves to `"false"` and a
trimmed-empty `test_repository_path` fails only when it resolves to
`"true"`. -/
theorem C4_amended :
    (∀ (root : XmlRoot) (f : String),
       f = "package_name" ∨ f = "repository_url" ∨
       f = "test_repository_path" ∨ f = "output_filename" →
       findChild root f = none → isErr (loadConfig (.parsed root)) = true) ∧
    (∀ root : XmlRoot, get_element_text root "package_name" none = .ok "" →
       isErr (loadConfig (.parsed root)) = true) ∧
    (∀ root : XmlRoot, get_element_text root "output_filename" none = .ok "" →
       isErr (loadConfig (.parsed root)) = true) ∧
    (∀ (root : XmlRoot) (m : String),
       get_element_text root "test_mode" (some "false") = .ok m →
       lower m = "false" →
       get_element_text root "repository_url" none = .ok "" →
       isErr (loadConfig (.parsed root)) = true) ∧
    (∀ (root : XmlRoot) (m : String),
       get_element_text root "test_mode" (some "false") = .ok m →
       lower m = "true" →
       get_element_text root "test_repository_path" none = .ok "" →
       isErr (loadConfig (.parsed root)) = true) :=
  ⟨load_err_of_field_missing, load_err_of_empty_package, load_err_of_empty_output,
   load_err_of_empty_url, load_err_of_empty_path⟩

/-- C4 witness: the amended statement applied to a whitespace-only
`package_name` source and to a source missing `output_filename`. -/
theorem C4_witness :
    isErr (loadConfig (.parsed rootBlankName)) = true ∧
    isErr (loadConfig (.parsed rootOnlyName)) = true :=
  ⟨C4_amended.2.1 rootBlankName (by decide),
   C4_amended.1 rootOnlyName "output_filename" (by simp) (by decide)⟩

/-- C5 counterexample: a present `test_mode` element whose text is whitespace
only does not receive the default `"false"` — the trimmed value is the empty
string and `load_config` fails, although the claim says the load succeeds
with `test_mode = "false"`. -/
theorem C5_counterexample :
    findChild rootBlankMode "test_mode" = some ⟨"test_mode", some " "⟩ ∧
    strip " " = "" ∧
    isErr (loadConfig (.parsed rootBlankMode)) = true := by decide

/-- C5 (amended): `test_mode` resolves to the default `"false"` exactly when
the element is absent or its text node is missing; a present element whose
text is whitespace-only is trimmed to the empty string and makes
`load_config` fail the true/false validation instead of defaulting. -/
theorem C5_amended :
    (∀ root : XmlRoot, findChild root "test_mode" = none →
       get_element_text root "test_mode" (some "false") = .ok "false") ∧
    (∀ (root : XmlRoot) (el : XmlElement),
       findChild root "test_mode" = some el → el.text = none →
       get_element_text root "test_mode" (some "false") = .ok "false") ∧
    (∀ (root : XmlRoot) (el : XmlElement) (tm : String),
       findChild root "test_mode" = some el → el.text = some tm →
       strip tm = "" → isErr (loadConfig (.parsed root)) = true) := by
  refine ⟨?_, ?_, ?_⟩
  · intro root h
    simp [get_element_text, h]
  · intro root el h htext
    simp [get_element_text, h, htext]
  · intro root el tm h htext htrim
    cases hres : loadConfig (.parsed root) with
    | error e => rfl
    | ok cfg =>
      exfalso
      obtain ⟨root', p, u, m, t, o, heq, hp, hu, hm, ht, ho, hcfg, hp', hmor, -⟩ :=
        loadConfig_ok_shape _ _ hres
      obtain rfl : root = root' := by injection heq
      simp only [get_element_text, h, htext, htrim] at hm
      obtain rfl : m = "" := by
        cases hm; rfl
      rcases hmor with hmode | hmode <;> exact absurd hmode (by decide)

/-- C5 witness: the amended statement applied to a source without a
`test_mode` element and to `rootBlankMode`. -/
theorem C5_witness :
    get_element_text rootOnlyName "test_mode" (some "false") = .ok "false" ∧
    isErr (loadConfig (.parsed rootBlankMode)) = true :=
  ⟨C5_amended.1 rootOnlyName (by decide),
   C5_amended.2.2 rootBlankMode ⟨"test_mode", some " "⟩ " "
     (by decide) (by decide) (by decide)⟩
/-- C6: every successful load stores `test_mode` as exactly `"true"` or
`"false"` in lower case whatever the input casing was, and a present
`test_mode` text whose trimmed, lower-cased value is neither `"true"` nor
`"false"` makes `load_config` fail. -/
theorem C6_test_mode_normalization :
    (∀ (src : ConfigSource) (cfg : ConfigDict), loadConfig src = .ok cfg →
       lookupS cfg "test_mode" = "true" ∨ lookupS cfg "test_mode" = "false") ∧
    (∀ (root : XmlRoot) (el : XmlElement) (tm : String),
       findChild root "test_mode" = some el → el.text = some tm →
       lower (strip tm) ≠ "true" → lower (strip tm) ≠ "false" →
       isErr (loadConfig (.parsed root)) = true) := by
  constructor
  · intro src cfg h
    obtain ⟨root, p, u, m, t, o, heq, hp, hu, hm, ht, ho, hcfg, hp', hmor, -⟩ :=
      loadConfig_ok_shape _ _ h
    subst hcfg
    simpa only [lookupS, String.reduceEq, reduceIte] using hmor
  · intro root el tm h htext hnt hnf
    cases hres : loadConfig (.parsed root) with
    | error e => rfl
    | ok cfg =>
      exfalso
      obtain ⟨root', p, u, m, t, o, heq, hp, hu, hm, ht, ho, hcfg, hp', hmor, -⟩ :=
        loadConfig_ok_shape _ _ hres
      obtain rfl : root = root' := by injection heq
      simp only [get_element_text, h, htext] at hm
      obtain rfl : m = strip tm := by cases hm; rfl
      rcases hmor with hmode | hmode
      · exact hnt hmode
      · exact hnf hmode

/-- C6 witness: upper-case `"TRUE"` is normalized to `"true"` on success, and
the literal `"invalid"` makes the load fail. -/
theorem C6_witness :
    (lookupS cfgUpperMode "test_mode" = "true" ∨
     lookupS cfgUpperMode "test_mode" = "false") ∧
    isErr (loadConfig (.parsed rootBadMode)) = true :=
  ⟨C6_test_mode_normalization.1 (.parsed rootUpperMode) cfgUpperMode (by decide),
   C6_test_mode_normalization.2 rootBadMode ⟨"test_mode", some "invalid"⟩ "invalid"
     (by decide) (by decide) (by decide) (by decide)⟩
/-- C7: with `test_mode` resolving to `"false"`, `_validate_config` fails
whenever the stored `repository_url` is empty, and whenever it is non-empty
but does not start with `http://` or `https://`. -/
theorem C7_normal_mode_url_checks (cfg : ConfigDict)
    (hmode : lower (lookupS cfg "test_mode") = "false")
    (hbad : lookupS cfg "repository_url" = "" ∨
      (lookupS cfg "repository_url" ≠ "" ∧
       strStarts (lookupS cfg "repository_url") "http://" = false ∧
       strStarts (lookupS cfg "repository_url") "https://" = false)) :
    isErr (validate_config cfg).2 = true := by
  simp only [validate_config, check_output, hmode, lookupS_dictSet,
    String.reduceEq, reduceIte]
  split
  · rfl
  · rcases hbad with hempty | ⟨hne, h1, h2⟩
    · simp only [hempty, String.reduceEq, reduceIte]
      rfl
    · simp only [if_neg hne, h1, h2]
      rfl

/-- C7 witness: the theorem applied to a normal-mode configuration whose URL
uses the ftp scheme. -/
theorem C7_witness : isErr (validate_config cfgFtpUrl).2 = true :=
  C7_normal_mode_url_checks cfgFtpUrl (by decide)
    (.inr ⟨by decide, by decide, by decide⟩)

/-- C8: with `test_mode` resolving to `"true"`, `_validate_config` fails
whenever the stored `test_repository_path` is empty — for every
configuration dictionary, hence regardless of the value `repository_url`
holds. -/
theorem C8_test_mode_path_required (cfg : ConfigDict)
    (hmode : lower (lookupS cfg "test_mode") = "true")
    (hpath : lookupS cfg "test_repository_path" = "") :
    isErr (validate_config cfg).2 = true := by
  simp only [validate_config, check_output, hmode, hpath, lookupS_dictSet,
    String.reduceEq, reduceIte]
  split
  · rfl
  · rfl

/-- C8 witness: the theorem applied to a test-mode configuration with an
empty path and a perfectly valid repository URL. -/
theorem C8_witness : isErr (validate_config cfgTestNoPath).2 = true :=
  C8_test_mode_path_required cfgTestNoPath (by decide) (by decide)
/-- C9: whenever some non-empty line of the local substitute-registry file has
a trimmed, case-insensitively matching key for the configured package name,
resolution succeeds on the first such line and returns the comma-split,
trimmed, non-empty tokens of that line's value in order, duplicates
preserved. -/
theorem C9_local_file_resolution (package_name : String)
    (fileLines : List String) (l : String)
    (hfind : (fileLines.filter (fun s => s ≠ "")).find?
        (fun s => lower (lineKey s) == lower package_name) = some l) :
    lower (lineKey l) = lower package_name ∧
    resolve_local package_name fileLines = .ok (lineDeps l) ∧
    ∀ d ∈ lineDeps l, d ≠ "" ∧ strip d = d := by
  refine ⟨?_, ?_, ?_⟩
  · have h := List.find?_some hfind
    simpa using h
  · simp only [resolve_local, hfind]
  · intro d hd
    simp only [lineDeps, List.mem_filter, List.mem_map] at hd
    obtain ⟨⟨cs, hcs, rfl⟩, hne⟩ := hd
    exact ⟨by simpa using hne, strip_strip _⟩

/-- C9 witness: the spec's own example — a file line `mypkg: a, b, a` resolved
for `mypkg` yields `["a", "b", "a"]`, duplicates preserved. -/
theorem C9_witness :
    resolve_local "mypkg" ["mypkg: a, b, a"] = .ok ["a", "b", "a"] ∧
    (lower (lineKey "mypkg: a, b, a") = lower "mypkg" ∧
     resolve_local "mypkg" ["mypkg: a, b, a"] =
       .ok (lineDeps "mypkg: a, b, a") ∧
     ∀ d ∈ lineDeps "mypkg: a, b, a", d ≠ "" ∧ strip d = d) :=
  ⟨by decide,
   C9_local_file_resolution "mypkg" ["mypkg: a, b, a"] "mypkg: a, b, a"
     (by decide)⟩
/-- C10: on every configuration source — missing, unreadable, malformed, or
parsed — a fresh `load_config` either returns a fully validated
configuration dictionary or produces a `ConfigError`; no other outcome
exists, since every internal failure of the loading block is surfaced as a
`ConfigError` value. -/
theorem C10_total_outcome (src : ConfigSource) :
    (∃ cfg, loadConfig src = .ok cfg ∧ fullyValidated cfg) ∨
    (∃ e, loadConfig src = .error e) := by
  cases hres : loadConfig src with
  | error e => exact .inr ⟨e, rfl⟩
  | ok cfg =>
    refine .inl ⟨cfg, rfl, ?_⟩
    obtain ⟨root, p, u, m, t, o, heq, hp, hu, hm, ht, ho, hcfg, hp', hmor, hmt, hmf, ho'⟩ :=
      loadConfig_ok_shape _ _ hres
    subst hcfg
    simp only [fullyValidated, lookupS, String.reduceEq, reduceIte, isValidUrl,
      Bool.or_eq_true]
    exact ⟨hp', hmor, hmt, fun hf => hmf hf, ho'⟩
